import Mathlib

set_option linter.unusedVariables false

/-!
Verification of the GhostGate Python SDK (src/public/sdk/ghostgate.py).

The file shallowly embeds the SDK's data model and control flow:
HTTP interactions are modelled by an `HttpOutcome` value supplied by the
environment (a response carrying a status code and body, or a transport
exception, i.e. `requests.RequestException`); handler results are modelled
by a small universe `PyVal` of Python values rich enough for the duck-typed
status-code extraction; and a guarded call of the `guard` decorator's
`wrapper` is a pure function producing a trace: the verification request
issued, the value returned (or exception propagated), the list of handler
invocations and the telemetry reports fired.

External collaborators are modelled as inputs: `time.time()` and
`uuid.uuid4().hex` become the `now`/`nonce` parameters, and the EIP-712
signing delegated to `eth_account` becomes the opaque `signature`
parameter (the SDK never inspects the signature, it only forwards it in a
header).  Environment variables become `Option String` parameters.
-/

namespace GhostGate

/-- Outcome of one HTTP interaction as seen by the client: either a response
with a status code and a body, or a transport exception raised by the
`requests` library (`requests.RequestException`). -/
inductive HttpOutcome where
  | response (status : Nat) (body : String)
  | transportError (msg : String)
  deriving Repr, DecidableEq

/-- `_verify_access`, decision part (lines 120-128): a transport exception
is caught and yields `False`; a 402 response yields `False`; otherwise the
result is `200 <= response.status_code < 300`. -/
def verify_access_decision (resp : HttpOutcome) : Bool :=
  match resp with
  | .transportError _ => false
  | .response s _ => if s = 402 then false else decide (200 ≤ s ∧ s < 300)

/-- Default of the `GHOST_GATE_BASE_URL` environment lookup (line 24). -/
def DEFAULT_BASE_URL : String := "https://ghost-rank.vercel.app"

/-- Hard-coded pulse telemetry endpoint (line 26). -/
def PULSE_URL : String := "https://ghost-rank.vercel.app/api/telemetry/pulse"

/-- Hard-coded outcome telemetry endpoint (line 27). -/
def OUTCOME_URL : String := "https://ghost-rank.vercel.app/api/telemetry/outcome"

/-- Python `str.rstrip("/")`: remove every trailing `'/'`. -/
def rstripSlashes (s : String) : String :=
  String.mk ((s.data.reverse.dropWhile (fun c => c = '/')).reverse)

/-- `BASE_URL = os.getenv("GHOST_GATE_BASE_URL", "https://ghost-rank.vercel.app").rstrip("/")`
(line 24), with the environment variable as a parameter. -/
def BASE_URL (envBase : Option String) : String :=
  rstripSlashes (envBase.getD DEFAULT_BASE_URL)

/-- `GATE_URL = f"{BASE_URL}/api/gate"` (line 25). -/
def GATE_URL (envBase : Option String) : String :=
  BASE_URL envBase ++ "/api/gate"

/-- Python truthiness of an optional string: `None` and `""` are falsy. -/
def strTruthy : Option String → Bool
  | none => false
  | some s => !(s == "")

/-- Python `a or b` on optional strings: `a` when truthy, else `b`. -/
def pyOrStr (a b : Option String) : Option String :=
  if strTruthy a then a else b

/-- Instance state after a successful `GhostGate.__init__`. -/
structure State where
  api_key : String
  chain_id : Int
  private_key : String
  deriving Repr, DecidableEq

/-- `private_key or os.getenv("GHOST_SIGNER_PRIVATE_KEY") or os.getenv("PRIVATE_KEY")`
(line 43): credential resolution of the signing key. -/
def resolve_private_key (arg envGhostSigner envPrivate : Option String) : Option String :=
  pyOrStr (pyOrStr arg envGhostSigner) envPrivate

/-- `GhostGate.__init__` (lines 31-45): `ValueError` when `api_key` is falsy,
then `ValueError` when no signing key resolves; otherwise the constructed
state.  The two environment variables are passed as parameters. -/
def init (api_key : String) (private_key : Option String) (chain_id : Int)
    (envGhostSigner envPrivate : Option String) : Except String State :=
  if api_key == "" then .error "api_key is required"
  else
    let pk := resolve_private_key private_key envGhostSigner envPrivate
    if strTruthy pk then
      .ok { api_key := api_key, chain_id := chain_id, private_key := pk.getD "" }
    else
      .error "A signing private key is required (private_key arg or GHOST_SIGNER_PRIVATE_KEY/PRIVATE_KEY)."

/-- Validation performed by `guard` (lines 55-58) before any decorator or
wrapper is created: `ValueError` on `cost <= 0`, then on empty `service`. -/
def guard_check (cost : Int) (service : String) : Except String Unit :=
  if cost ≤ 0 then .error "cost must be greater than 0"
  else if service == "" then .error "service is required"
  else .ok ()

/-- The access payload dict of `_build_access_payload` (lines 76-81). -/
structure AccessPayload where
  service : String
  timestamp : Nat
  nonce : String
  deriving Repr, DecidableEq

/-- `_build_access_payload` (lines 76-81), with `int(time.time())` and
`uuid.uuid4().hex` as the `now`/`nonce` parameters. -/
def build_access_payload (service : String) (now : Nat) (nonce : String) : AccessPayload :=
  { service := service, timestamp := now, nonce := nonce }

/-- JSON string escaping for the two string fields of the payload. -/
def jsonEscape (s : String) : String :=
  String.join (s.data.map fun c =>
    if c = '\\' then "\\\\" else if c = '"' then "\\\"" else String.singleton c)

/-- `json.dumps(payload)` for the three-field access payload dict, in its
insertion order `service`, `timestamp`, `nonce` (line 114). -/
def json_dumps_access_payload (p : AccessPayload) : String :=
  "\x7b\"service\": \"" ++ jsonEscape p.service ++ "\", \"timestamp\": "
    ++ toString p.timestamp ++ ", \"nonce\": \"" ++ jsonEscape p.nonce ++ "\"\x7d"

/-- The HTTP request issued by `requests.request(...)` (line 121). -/
structure HttpRequest where
  method : String
  url : String
  headers : List (String × String)
  timeout : Nat
  deriving Repr, DecidableEq

/-- The request built by `_verify_access` (lines 112-121): headers
`x-ghost-sig`, `x-ghost-payload`, `x-ghost-credit-cost`, `accept`; target
`f"{GATE_URL}/{service}"`; `method.upper()`; `timeout=10`. -/
def build_verify_request (envBase : Option String) (service : String) (cost : Int)
    (method : String) (payload : AccessPayload) (signature : String) : HttpRequest :=
  { method := method.toUpper
    url := GATE_URL envBase ++ "/" ++ service
    headers := [("x-ghost-sig", signature),
                ("x-ghost-payload", json_dumps_access_payload payload),
                ("x-ghost-credit-cost", toString cost),
                ("accept", "application/json, text/plain;q=0.9, */*;q=0.8")]
    timeout := 10 }

/-- `_verify_access` (lines 109-128) as request construction plus the
status-code decision on the environment-supplied response. -/
def verify_access (envBase : Option String) (service : String) (cost : Int)
    (method : String) (now : Nat) (nonce : String) (signature : String)
    (resp : HttpOutcome) : HttpRequest × Bool :=
  let payload := build_access_payload service now nonce
  let req := build_verify_request envBase service cost method payload signature
  (req, verify_access_decision resp)

/-- Universe of Python values a handler may return, rich enough for the
duck-typed inspection of `_extract_status_code`: an object may carry a
`status_code` attribute of any value (`tag` distinguishes otherwise equal
objects), a tuple carries its elements, and plain ints/strings/None carry
neither a `status_code` attribute nor tuple structure. -/
inductive PyVal where
  | vint (n : Int)
  | vstr (s : String)
  | vnone
  | vtuple (elems : List PyVal)
  | vobj (status_code : Option PyVal) (tag : Nat)

/-- `_extract_status_code` (lines 154-162): first the `status_code`
attribute when present and an `int`; else, for a tuple of length at least
2 whose second element is an `int`, that element; else `None`. -/
def extract_status_code (result : PyVal) : Option Int :=
  let fromAttr : Option Int :=
    match result with
    | .vobj (some (.vint n)) _ => some n
    | _ => none
  match fromAttr with
  | some n => some n
  | none =>
    match result with
    | .vtuple elems =>
      if 2 ≤ elems.length then
        match elems.get? 1 with
        | some (.vint n) => some n
        | _ => none
      else none
    | _ => none

/-- `success = status_code is None or status_code < 500` (line 68). -/
def success_of (status_code : Option Int) : Bool :=
  match status_code with
  | none => true
  | some n => decide (n < 500)

/-- Telemetry payload of `report_consumer_outcome` (lines 146-151). -/
structure OutcomePayload where
  apiKey : String
  success : Bool
  statusCode : Option Int
  agentId : Option String
  deriving Repr, DecidableEq

/-- Telemetry payload of `send_pulse` (lines 132-135). -/
structure PulsePayload where
  apiKey : String
  agentId : Option String
  deriving Repr, DecidableEq

/-- `_post_optional` (lines 164-170): JSON POST with `timeout=5`; a caught
transport exception yields `False`, otherwise `200 <= status_code < 300`.
The url and payload are forwarded but the result depends only on the
environment-supplied response. -/
def post_optional (url : String) {A : Type} (payload : A) (resp : HttpOutcome) : Bool :=
  match resp with
  | .transportError _ => false
  | .response s _ => decide (200 ≤ s ∧ s < 300)

/-- `send_pulse` (lines 130-136). -/
def send_pulse (g : State) (agent_id : Option String) (resp : HttpOutcome) : Bool :=
  post_optional PULSE_URL
    ({ apiKey := g.api_key, agentId := agent_id } : PulsePayload) resp

/-- The payload dict built by `report_consumer_outcome` (lines 146-151). -/
def outcome_payload (g : State) (success : Bool) (status_code : Option Int)
    (agent_id : Option String) : OutcomePayload :=
  { apiKey := g.api_key, success := success, statusCode := status_code, agentId := agent_id }

/-- `report_consumer_outcome` (lines 138-152). -/
def report_consumer_outcome (g : State) (success : Bool) (status_code : Option Int)
    (agent_id : Option String) (resp : HttpOutcome) : Bool :=
  post_optional OUTCOME_URL (outcome_payload g success status_code agent_id) resp

/-- Result of invoking the wrapped handler: a returned Python value or a
raised exception. -/
inductive HandlerOutcome where
  | ok (result : PyVal)
  | raises (exc : String)

/-- What a guarded call does for its caller: return a Python value or let
an exception propagate. -/
inductive WrapperOutcome where
  | returns (v : PyVal)
  | raises (exc : String)

/-- Trace of one guarded call: the verification request issued, the
caller-visible outcome, the handler invocations (with their arguments, in
order), the outcome-telemetry payloads fired and the booleans those
telemetry posts returned. -/
structure GuardedCall (A : Type) where
  verifyRequest : HttpRequest
  outcome : WrapperOutcome
  handlerCalls : List A
  reports : List OutcomePayload
  reportPosts : List Bool

/-- The `wrapper` closure produced by `guard(cost, service=..., method=...)`
(lines 62-70): verify access; when denied return the string
`"Payment Required"` without touching the handler; when allowed call the
handler once with the original arguments, and if it returns normally,
extract a status code from the result, classify success, fire the outcome
report (its boolean ignored) and return the result unchanged; if the
handler raises, the exception propagates and no report is sent.
`verifyResp` and `telemetryResp` are the environment's responses to the
verification request and the telemetry post. -/
def wrapper {A : Type} (g : State) (envBase : Option String)
    (service : String) (cost : Int) (method : String)
    (now : Nat) (nonce : String) (signature : String)
    (verifyResp telemetryResp : HttpOutcome)
    (func : A → HandlerOutcome) (args : A) : GuardedCall A :=
  let v := verify_access envBase service cost method now nonce signature verifyResp
  if v.2 = false then
    { verifyRequest := v.1, outcome := .returns (.vstr "Payment Required"),
      handlerCalls := [], reports := [], reportPosts := [] }
  else
    match func args with
    | .raises e =>
      { verifyRequest := v.1, outcome := .raises e, handlerCalls := [args],
        reports := [], reportPosts := [] }
    | .ok result =>
      let status_code := extract_status_code result
      let success := success_of status_code
      { verifyRequest := v.1, outcome := .returns result, handlerCalls := [args],
        reports := [outcome_payload g success status_code none],
        reportPosts := [report_consumer_outcome g success status_code none telemetryResp] }

end GhostGate

open GhostGate

/-- C1: for every HTTP response received by `_verify_access`, the result is
allow exactly when the status code lies in 200-299; 402 and every other
non-2xx status yield deny (and the body is never consulted). -/
theorem c1_status_code_policy (s : Nat) (body : String) :
    GhostGate.verify_access_decision (.response s body) = true ↔ (200 ≤ s ∧ s < 300) := by
  unfold GhostGate.verify_access_decision
  by_cases h : s = 402
  · subst h; simp
  · simp [h]

/-- C1 witness: a 204 response is allowed; the theorem applied at status
204 with empty body. -/
theorem c1_status_code_policy_witness :
    GhostGate.verify_access_decision (.response 204 "") = true :=
  (c1_status_code_policy 204 "").mpr (by decide)

/-- C2: whenever `_verify_access` denies (e.g. a 402 response), the wrapper
returns the sentinel string `"Payment Required"` and the wrapped handler is
never invoked. -/
theorem c2_denied_returns_sentinel {A : Type} (g : State) (envBase : Option String)
    (service : String) (cost : Int) (method : String)
    (now : Nat) (nonce signature : String) (vresp tresp : HttpOutcome)
    (func : A → HandlerOutcome) (args : A)
    (h : verify_access_decision vresp = false) :
    (wrapper g envBase service cost method now nonce signature vresp tresp func args).outcome
        = .returns (.vstr "Payment Required") ∧
    (wrapper g envBase service cost method now nonce signature vresp tresp func args).handlerCalls
        = [] := by
  unfold wrapper verify_access
  simp [h]

/-- C2 witness: the theorem applied at a concrete denied call (402
response), with the hypothesis discharged by evaluation. -/
theorem c2_denied_returns_sentinel_witness :
    (wrapper { api_key := "k", chain_id := 8453, private_key := "0xabc" } none
        "weather" 3 "GET" 0 "n0" "sig" (.response 402 "") (.response 200 "")
        (fun _ : Unit => .ok (.vint 7)) ()).outcome
      = .returns (.vstr "Payment Required") ∧
    (wrapper { api_key := "k", chain_id := 8453, private_key := "0xabc" } none
        "weather" 3 "GET" 0 "n0" "sig" (.response 402 "") (.response 200 "")
        (fun _ : Unit => .ok (.vint 7)) ()).handlerCalls = [] :=
  c2_denied_returns_sentinel { api_key := "k", chain_id := 8453, private_key := "0xabc" } none
    "weather" 3 "GET" 0 "n0" "sig" (.response 402 "") (.response 200 "")
    (fun _ : Unit => .ok (.vint 7)) () (by decide)

/-- C3: whenever `_verify_access` allows (a 2xx response) and the handler
returns normally, the handler is invoked exactly once with the original
arguments and the wrapper returns the handler's result unchanged. -/
theorem c3_allowed_invokes_handler_once {A : Type} (g : State) (envBase : Option String)
    (service : String) (cost : Int) (method : String)
    (now : Nat) (nonce signature : String) (vresp tresp : HttpOutcome)
    (func : A → HandlerOutcome) (args : A) (r : PyVal)
    (hallow : verify_access_decision vresp = true)
    (hret : func args = .ok r) :
    (wrapper g envBase service cost method now nonce signature vresp tresp func args).handlerCalls
        = [args] ∧
    (wrapper g envBase service cost method now nonce signature vresp tresp func args).outcome
        = .returns r := by
  unfold wrapper verify_access
  simp [hallow, hret]

/-- C3 witness: the theorem applied at a concrete allowed call (200
response) with a handler returning the string "ok" on argument 42. -/
theorem c3_allowed_invokes_handler_once_witness :
    (wrapper { api_key := "k", chain_id := 8453, private_key := "0xabc" } none
        "weather" 3 "GET" 0 "n0" "sig" (.response 200 "") (.response 200 "")
        (fun _ : Nat => .ok (.vstr "ok")) 42).handlerCalls = [42] ∧
    (wrapper { api_key := "k", chain_id := 8453, private_key := "0xabc" } none
        "weather" 3 "GET" 0 "n0" "sig" (.response 200 "") (.response 200 "")
        (fun _ : Nat => .ok (.vstr "ok")) 42).outcome = .returns (.vstr "ok") :=
  c3_allowed_invokes_handler_once { api_key := "k", chain_id := 8453, private_key := "0xabc" }
    none "weather" 3 "GET" 0 "n0" "sig" (.response 200 "") (.response 200 "")
    (fun _ : Nat => .ok (.vstr "ok")) 42 (.vstr "ok") (by decide) rfl

/-- C4: a transport exception inside `_verify_access` is caught (never
propagated to the guarded caller), yields deny, and the whole guarded call
is identical to one receiving a 402 response: same request, sentinel
return, no handler invocation, no telemetry. -/
theorem c4_transport_error_equals_402 {A : Type} (g : State) (envBase : Option String)
    (service : String) (cost : Int) (method : String)
    (now : Nat) (nonce signature : String) (tresp : HttpOutcome)
    (func : A → HandlerOutcome) (args : A) (msg body : String) :
    verify_access_decision (.transportError msg) = false ∧
    wrapper g envBase service cost method now nonce signature (.transportError msg) tresp func args
      = wrapper g envBase service cost method now nonce signature (.response 402 body) tresp func args := by
  constructor
  · rfl
  · unfold wrapper verify_access
    simp [verify_access_decision]

/-- C4 witness: the theorem applied at a concrete call, showing the
transport-error trace literally equals the 402 trace. -/
theorem c4_transport_error_equals_402_witness :
    verify_access_decision (.transportError "connection reset") = false ∧
    wrapper { api_key := "k", chain_id := 8453, private_key := "0xabc" } none
        "weather" 3 "GET" 0 "n0" "sig" (.transportError "connection reset") (.response 200 "")
        (fun _ : Unit => .ok (.vint 7)) ()
      = wrapper { api_key := "k", chain_id := 8453, private_key := "0xabc" } none
        "weather" 3 "GET" 0 "n0" "sig" (.response 402 "payment required") (.response 200 "")
        (fun _ : Unit => .ok (.vint 7)) () :=
  c4_transport_error_equals_402 { api_key := "k", chain_id := 8453, private_key := "0xabc" }
    none "weather" 3 "GET" 0 "n0" "sig" (.response 200 "")
    (fun _ : Unit => .ok (.vint 7)) () "connection reset" "payment required"

/-- C5: in this signature variant, credential resolution happens at
construction time: when `private_key or GHOST_SIGNER_PRIVATE_KEY or
PRIVATE_KEY` resolves to nothing, `__init__` raises `ValueError`, so no
gate instance (hence no wrapper, no verification request and no handler
invocation) can exist; conversely every successfully constructed gate
carries a resolved (truthy) credential, so a guarded call with an
unresolved credential never occurs. -/
theorem c5_unresolved_credential_denied_at_construction
    (api_key : String) (pk envGhostSigner envPrivate : Option String) (cid : Int) :
    (strTruthy (resolve_private_key pk envGhostSigner envPrivate) = false →
      (init api_key pk cid envGhostSigner envPrivate).isOk = false) ∧
    (∀ g : State, init api_key pk cid envGhostSigner envPrivate = .ok g →
      g.private_key ≠ "") := by
  constructor
  · intro h
    unfold init
    by_cases hk : api_key == ""
    · simp [hk, Except.isOk, Except.toBool]
    · simp [hk, h, Except.isOk, Except.toBool]
  · intro g hg
    unfold init at hg
    by_cases hk : api_key == ""
    · simp [hk] at hg
    · simp [hk] at hg
      by_cases ht : strTruthy (resolve_private_key pk envGhostSigner envPrivate)
      · simp [ht] at hg
        rcases hg with ⟨rfl⟩ | h
        · cases hpk : resolve_private_key pk envGhostSigner envPrivate with
          | none => rw [hpk] at ht; simp [strTruthy] at ht
          | some s =>
            rw [hpk] at ht
            simp [strTruthy] at ht
            simpa [hpk] using ht
      · simp [ht] at hg

/-- C5 witness: with no key argument and both environment variables unset,
credential resolution yields nothing and construction fails. -/
theorem c5_unresolved_credential_denied_at_construction_witness :
    (init "k" none 8453 none none).isOk = false :=
  (c5_unresolved_credential_denied_at_construction "k" none none none 8453).1 (by decide)

/-- C6: the reported outcome classifies success as true exactly when the
extracted status code is absent or strictly below 500; the status code
comes from an integer `status_code` attribute, or else from the integer
second element of a tuple of length at least 2; concretely, through the
wrapper, a 404-carrying result reports success true with statusCode 404, a
503-carrying tuple reports success false with statusCode 503, and a plain
string result reports success true with statusCode none. -/
theorem c6_outcome_classification :
    (∀ st : Option Int, success_of st = true ↔ (st = none ∨ ∃ n : Int, st = some n ∧ n < 500)) ∧
    (∀ (n : Int) (tag : Nat), extract_status_code (.vobj (some (.vint n)) tag) = some n) ∧
    (∀ (a : PyVal) (n : Int) (rest : List PyVal),
      extract_status_code (.vtuple (a :: .vint n :: rest)) = some n) ∧
    (∀ s : String, extract_status_code (.vstr s) = none) ∧
    (wrapper { api_key := "k", chain_id := 8453, private_key := "0xabc" } none
        "weather" 3 "GET" 0 "n0" "sig" (.response 200 "") (.response 200 "")
        (fun _ : Unit => .ok (.vobj (some (.vint 404)) 0)) ()).reports
      = [{ apiKey := "k", success := true, statusCode := some 404, agentId := none }] ∧
    (wrapper { api_key := "k", chain_id := 8453, private_key := "0xabc" } none
        "weather" 3 "GET" 0 "n0" "sig" (.response 200 "") (.response 200 "")
        (fun _ : Unit => .ok (.vtuple [.vstr "err", .vint 503])) ()).reports
      = [{ apiKey := "k", success := false, statusCode := some 503, agentId := none }] ∧
    (wrapper { api_key := "k", chain_id := 8453, private_key := "0xabc" } none
        "weather" 3 "GET" 0 "n0" "sig" (.response 200 "") (.response 200 "")
        (fun _ : Unit => .ok (.vstr "plain")) ()).reports
      = [{ apiKey := "k", success := true, statusCode := none, agentId := none }] := by
  refine ⟨?_, fun n tag => rfl, ?_, fun s => rfl, rfl, rfl, rfl⟩
  · intro st
    cases st with
    | none => simp [success_of]
    | some n => simp [success_of]
  · intro a n rest
    simp [extract_status_code]

/-- C6 witness: the success classification applied at the concrete status
code 404. -/
theorem c6_outcome_classification_witness :
    success_of (some 404) = true :=
  (c6_outcome_classification.1 (some 404)).mpr (Or.inr ⟨404, rfl, by decide⟩)

/-- C7: `_post_optional` (used by `send_pulse` and
`report_consumer_outcome`) turns any transport exception into `false`
instead of raising, returns `true` exactly on a 2xx response, and the
telemetry response never changes the wrapper's caller-visible outcome,
handler invocations or report payloads. -/
theorem c7_telemetry_fail_silent :
    (∀ (url : String) (A : Type) (payload : A) (msg : String),
      post_optional url payload (.transportError msg) = false) ∧
    (∀ (url : String) (A : Type) (payload : A) (s : Nat) (body : String),
      post_optional url payload (.response s body) = true ↔ (200 ≤ s ∧ s < 300)) ∧
    (∀ (g : State) (agent_id : Option String) (msg : String),
      send_pulse g agent_id (.transportError msg) = false) ∧
    (∀ (g : State) (success : Bool) (st : Option Int) (aid : Option String) (msg : String),
      report_consumer_outcome g success st aid (.transportError msg) = false) ∧
    (∀ (A : Type) (g : State) (envBase : Option String) (service : String) (cost : Int)
      (method : String) (now : Nat) (nonce signature : String)
      (vresp tresp tresp' : HttpOutcome) (func : A → HandlerOutcome) (args : A),
      (wrapper g envBase service cost method now nonce signature vresp tresp func args).outcome
        = (wrapper g envBase service cost method now nonce signature vresp tresp' func args).outcome ∧
      (wrapper g envBase service cost method now nonce signature vresp tresp func args).handlerCalls
        = (wrapper g envBase service cost method now nonce signature vresp tresp' func args).handlerCalls ∧
      (wrapper g envBase service cost method now nonce signature vresp tresp func args).reports
        = (wrapper g envBase service cost method now nonce signature vresp tresp' func args).reports) := by
  refine ⟨fun url A payload msg => rfl, ?_, fun g aid msg => rfl, fun g s st aid msg => rfl, ?_⟩
  · intro url A payload s body
    simp [post_optional]
  · intro A g envBase service cost method now nonce signature vresp tresp tresp' func args
    unfold wrapper verify_access
    by_cases hv : verify_access_decision vresp = false
    · simp [hv]
    · cases hfa : func args <;> simp [hv, hfa]

/-- C7 witness: a telemetry post hitting a transport error returns false;
the theorem applied at a concrete url, payload and error. -/
theorem c7_telemetry_fail_silent_witness :
    post_optional "https://ghost-rank.vercel.app/api/telemetry/outcome" (0 : Nat)
      (.transportError "boom") = false :=
  c7_telemetry_fail_silent.1 "https://ghost-rank.vercel.app/api/telemetry/outcome" Nat 0 "boom"

/-- C8: configuration errors are raised at setup or decoration time: a
falsy `api_key` raises `ValueError`; with no key argument and both
environment variables absent, the construction raises `ValueError`; and
`guard` raises `ValueError` on `cost <= 0` or an empty service name before
any handler is wrapped. -/
theorem c8_configuration_errors :
    (∀ (pk : Option String) (cid : Int) (e1 e2 : Option String),
      init "" pk cid e1 e2 = .error "api_key is required") ∧
    (∀ (ak : String) (cid : Int), ak ≠ "" →
      init ak none cid none none
        = .error "A signing private key is required (private_key arg or GHOST_SIGNER_PRIVATE_KEY/PRIVATE_KEY).") ∧
    (∀ (cost : Int) (service : String), cost ≤ 0 →
      guard_check cost service = .error "cost must be greater than 0") ∧
    (∀ cost : Int, 0 < cost → guard_check cost "" = .error "service is required") := by
  refine ⟨fun pk cid e1 e2 => rfl, ?_, ?_, ?_⟩
  · intro ak cid h
    unfold init
    rw [if_neg (by simpa using h)]
    rfl
  · intro cost service h
    unfold guard_check
    rw [if_pos h]
  · intro cost h
    unfold guard_check
    rw [if_neg (by omega)]
    rfl

/-- C8 witness: the four configuration errors at concrete inputs: empty
api key; no private key anywhere; cost 0; empty service with cost 3. -/
theorem c8_configuration_errors_witness :
    init "" (some "0xabc") 8453 none none = .error "api_key is required" ∧
    init "k" none 8453 none none
      = .error "A signing private key is required (private_key arg or GHOST_SIGNER_PRIVATE_KEY/PRIVATE_KEY)." ∧
    guard_check 0 "weather" = .error "cost must be greater than 0" ∧
    guard_check 3 "" = .error "service is required" :=
  ⟨c8_configuration_errors.1 (some "0xabc") 8453 none none,
   c8_configuration_errors.2.1 "k" 8453 (by decide),
   c8_configuration_errors.2.2.1 0 "weather" (by decide),
   c8_configuration_errors.2.2.2 3 (by decide)⟩

/-- C9: every guarded call sends its verification request to
`{base}/api/gate/{service}` with the `x-ghost-sig`, `x-ghost-payload`
(JSON-serialized access payload) and `x-ghost-credit-cost` (decimal cost)
headers, the configured method upper-cased, and a timeout of 10; and the
decision consults only the response's status code, never its body. -/
theorem c9_verify_request_shape {A : Type} (g : State) (envBase : Option String)
    (service : String) (cost : Int) (method : String)
    (now : Nat) (nonce signature : String) (vresp tresp : HttpOutcome)
    (func : A → HandlerOutcome) (args : A) :
    (wrapper g envBase service cost method now nonce signature vresp tresp func args).verifyRequest
      = { method := method.toUpper,
          url := GATE_URL envBase ++ "/" ++ service,
          headers := [("x-ghost-sig", signature),
                      ("x-ghost-payload",
                        json_dumps_access_payload (build_access_payload service now nonce)),
                      ("x-ghost-credit-cost", toString cost),
                      ("accept", "application/json, text/plain;q=0.9, */*;q=0.8")],
          timeout := 10 } ∧
    (∀ (s : Nat) (b b' : String),
      verify_access_decision (.response s b) = verify_access_decision (.response s b')) := by
  refine ⟨?_, fun s b b' => rfl⟩
  unfold wrapper verify_access
  by_cases hv : verify_access_decision vresp = false
  · simp [hv, build_verify_request]
  · cases hfa : func args <;> simp [hv, hfa, build_verify_request]

/-- C9 witness: the request shape at a concrete call (method "get",
service "weather", cost 3), evaluated explicitly. -/
theorem c9_verify_request_shape_witness :
    (wrapper { api_key := "k", chain_id := 8453, private_key := "0xabc" } none
        "weather" 3 "get" 7 "n0" "sig" (.response 200 "") (.response 200 "")
        (fun _ : Unit => .ok (.vint 1)) ()).verifyRequest
      = { method := "get".toUpper,
          url := GATE_URL none ++ "/" ++ "weather",
          headers := [("x-ghost-sig", "sig"),
                      ("x-ghost-payload",
                        json_dumps_access_payload (build_access_payload "weather" 7 "n0")),
                      ("x-ghost-credit-cost", toString (3 : Int)),
                      ("accept", "application/json, text/plain;q=0.9, */*;q=0.8")],
          timeout := 10 } :=
  (c9_verify_request_shape { api_key := "k", chain_id := 8453, private_key := "0xabc" } none
    "weather" 3 "get" 7 "n0" "sig" (.response 200 "") (.response 200 "")
    (fun _ : Unit => .ok (.vint 1)) ()).1

/-- C10: when verification allows but the handler itself raises, the
exception propagates unchanged to the caller, the handler was invoked with
the original arguments, and no outcome report is sent. -/
theorem c10_handler_exception_propagates {A : Type} (g : State) (envBase : Option String)
    (service : String) (cost : Int) (method : String)
    (now : Nat) (nonce signature : String) (vresp tresp : HttpOutcome)
    (func : A → HandlerOutcome) (args : A) (e : String)
    (hallow : verify_access_decision vresp = true)
    (hraise : func args = .raises e) :
    (wrapper g envBase service cost method now nonce signature vresp tresp func args).outcome
      = .raises e ∧
    (wrapper g envBase service cost method now nonce signature vresp tresp func args).handlerCalls
      = [args] ∧
    (wrapper g envBase service cost method now nonce signature vresp tresp func args).reports
      = [] ∧
    (wrapper g envBase service cost method now nonce signature vresp tresp func args).reportPosts
      = [] := by
  unfold wrapper verify_access
  simp [hallow, hraise]

/-- C10 witness: the theorem applied at a concrete allowed call whose
handler raises "RuntimeError". -/
theorem c10_handler_exception_propagates_witness :
    (wrapper { api_key := "k", chain_id := 8453, private_key := "0xabc" } none
        "weather" 3 "GET" 0 "n0" "sig" (.response 200 "") (.response 200 "")
        (fun _ : Unit => .raises "RuntimeError") ()).outcome = .raises "RuntimeError" ∧
    (wrapper { api_key := "k", chain_id := 8453, private_key := "0xabc" } none
        "weather" 3 "GET" 0 "n0" "sig" (.response 200 "") (.response 200 "")
        (fun _ : Unit => .raises "RuntimeError") ()).handlerCalls = [()] ∧
    (wrapper { api_key := "k", chain_id := 8453, private_key := "0xabc" } none
        "weather" 3 "GET" 0 "n0" "sig" (.response 200 "") (.response 200 "")
        (fun _ : Unit => .raises "RuntimeError") ()).reports = [] ∧
    (wrapper { api_key := "k", chain_id := 8453, private_key := "0xabc" } none
        "weather" 3 "GET" 0 "n0" "sig" (.response 200 "") (.response 200 "")
        (fun _ : Unit => .raises "RuntimeError") ()).reportPosts = [] :=
  c10_handler_exception_propagates { api_key := "k", chain_id := 8453, private_key := "0xabc" }
    none "weather" 3 "GET" 0 "n0" "sig" (.response 200 "") (.response 200 "")
    (fun _ : Unit => .raises "RuntimeError") () "RuntimeError" (by decide) rfl
